import Mathlib

/-!
Shallow embedding of the ink! ERC-20 contract in `src/lib.rs` (module `erc20`).

The contract state is a `total_supply : Balance` together with two
`ink::storage::Mapping`s: `balances : Mapping AccountId Balance` and
`allowances : Mapping (AccountId × AccountId) Balance`.  A `Mapping` is a
key-value store with `get` (returning an `Option`) and overwriting `insert`;
we embed it as an association list without duplicate keys being assumed, where
`insert` replaces the first entry holding the key (or appends a new entry) and
`get` returns the first entry's value.  `Balance` is `u128` in the source; no
operation of the contract can overflow it starting from a supply below
`2^128`, and none of the claims concerns overflow, so we use `Nat`.

Each message is embedded as a function from the pre-state and its explicit
caller (the source reads `self.env().caller()`) into a triple
`(result, post-state, emitted events)`: the post-state records every storage
write the Rust function performed before returning, including writes performed
before an early `return Err(..)` (mirroring `&mut self`), and the event list
records the `emit_event` calls.
-/

namespace Erc20Spec

/-- `AccountId`: opaque, compared only for equality. -/
abbrev AccountId := Nat

/-- `Balance = u128`, embedded as `Nat` (see the header comment). -/
abbrev Balance := Nat

/-- `ink::storage::Mapping K V`, as an association list. -/
def Mapping (K V : Type) : Type := List (K × V)

namespace Mapping

/-- `Mapping::default()`: the empty store. -/
def default {K V : Type} : Mapping K V := []

/-- `Mapping::get`: the first stored value for `k`, if any. -/
def get {K V : Type} [DecidableEq K] : Mapping K V → K → Option V
  | [], _ => none
  | (k', v) :: rest, k => if k' = k then some v else get rest k

/-- `Mapping::insert`: overwrite the entry for `k`, or append one. -/
def insert {K V : Type} [DecidableEq K] : Mapping K V → K → V → Mapping K V
  | [], k, v => [(k, v)]
  | (k', v') :: rest, k, v =>
      if k' = k then (k, v) :: rest else (k', v') :: insert rest k v

/-- The list of stored values (for the conservation sum). -/
def values {K V : Type} : Mapping K V → List V
  | [] => []
  | (_, v) :: rest => v :: values rest

end Mapping

instance {K V : Type} [DecidableEq K] [DecidableEq V] : DecidableEq (Mapping K V) :=
  inferInstanceAs (DecidableEq (List (K × V)))

/-- The storage struct `Erc20`. -/
structure Erc20 where
  total_supply : Balance
  balances : Mapping AccountId Balance
  allowances : Mapping (AccountId × AccountId) Balance
deriving DecidableEq

/-- The contract's `Error` enum. -/
inductive Error where
  | InsufficientBalance
  | InsufficientAllowance
deriving DecidableEq

/-- The two `#[ink(event)]` shapes: `Transfer { from, to, value }` with
`from : Option AccountId`, and `Approval { from, to, value }`; the Rust
field `from` is the argument named `source` here (`from` and `to` are
keywords in Lean). -/
inductive Event where
  | Transfer (source : Option AccountId) (to_ : AccountId) (value : Balance)
  | Approval (source : AccountId) (to_ : AccountId) (value : Balance)
deriving DecidableEq

/-- The constructor `new`: credit the whole supply to the caller and emit
`Transfer { from: None, to: caller, value: total_supply }`. -/
def new (caller : AccountId) (total_supply : Balance) : Erc20 × List Event :=
  ({ total_supply := total_supply
     balances := Mapping.insert Mapping.default caller total_supply
     allowances := Mapping.default },
   [Event.Transfer none caller total_supply])

/-- `balance_of_impl`: `self.balances.get(owner).unwrap_or_default()`. -/
def balance_of_impl (s : Erc20) (owner : AccountId) : Balance :=
  (s.balances.get owner).getD 0

/-- Message `total_supply`. -/
def total_supply (s : Erc20) : Balance :=
  s.total_supply

/-- Message `balance_of`. -/
def balance_of (s : Erc20) (owner : AccountId) : Balance :=
  balance_of_impl s owner

/-- `allowance_impl`: `self.allowances.get((owner, spender)).unwrap_or_default()`. -/
def allowance_impl (s : Erc20) (owner spender : AccountId) : Balance :=
  (s.allowances.get (owner, spender)).getD 0

/-- Message `allowance`. -/
def allowance (s : Erc20) (owner spender : AccountId) : Balance :=
  allowance_impl s owner spender

/-- Private `transfer_from_to`: read `from`'s balance, fail if below `value`,
otherwise read `to`'s balance (before any write), store the debited `from`
balance, then store the credited `to` balance, and emit the event. -/
def transfer_from_to (s : Erc20) (source to_ : AccountId) (value : Balance) :
    Except Error Unit × Erc20 × List Event :=
  let from_balance := balance_of_impl s source
  if from_balance < value then
    (Except.error Error.InsufficientBalance, s, [])
  else
    let to_balance := balance_of_impl s to_
    let s' := { s with
      balances := (s.balances.insert source (from_balance - value)).insert to_
        (to_balance + value) }
    (Except.ok (), s', [Event.Transfer (some source) to_ value])

/-- Message `transfer`. -/
def transfer (s : Erc20) (caller to_ : AccountId) (value : Balance) :
    Except Error Unit × Erc20 × List Event :=
  transfer_from_to s caller to_ value

/-- Message `transfer_from`: check the allowance, store its decrement, then
run `transfer_from_to` — whose failure leaves the stored decrement in place. -/
def transfer_from (s : Erc20) (caller source to_ : AccountId) (value : Balance) :
    Except Error Unit × Erc20 × List Event :=
  let allowance := allowance_impl s source caller
  if allowance < value then
    (Except.error Error.InsufficientAllowance, s, [])
  else
    let s' := { s with
      allowances := s.allowances.insert (source, caller) (allowance - value) }
    transfer_from_to s' source to_ value

/-- Message `approve`. -/
def approve (s : Erc20) (caller spender : AccountId) (value : Balance) :
    Except Error Unit × Erc20 × List Event :=
  let owner_balance := balance_of_impl s caller
  if owner_balance < value then
    (Except.error Error.InsufficientBalance, s, [])
  else
    let s' := { s with
      allowances := s.allowances.insert (caller, spender) value }
    (Except.ok (), s', [Event.Approval caller spender value])

/-- One invocation of a mutating message, with its caller. -/
inductive Op where
  | transfer (caller to_ : AccountId) (value : Balance)
  | approve (caller spender : AccountId) (value : Balance)
  | transfer_from (caller source to_ : AccountId) (value : Balance)

/-- Dispatch an `Op` on a state. -/
def applyOp (s : Erc20) : Op → Except Error Unit × Erc20 × List Event
  | Op.transfer caller to_ value => transfer s caller to_ value
  | Op.approve caller spender value => approve s caller spender value
  | Op.transfer_from caller source to_ value => transfer_from s caller source to_ value

/-- States reachable from `new creator initial_supply` by any sequence of
message invocations (successful or failed). -/
inductive ReachableFrom (creator : AccountId) (initial_supply : Balance) : Erc20 → Prop where
  | init : ReachableFrom creator initial_supply (new creator initial_supply).1
  | step {s : Erc20} (op : Op) :
      ReachableFrom creator initial_supply s →
      ReachableFrom creator initial_supply (applyOp s op).2.1

/-- Sum of all values stored in the balances mapping. -/
def sumBalances (s : Erc20) : Balance :=
  (Mapping.values s.balances).sum

/-- The state after: `new` by account 0 with supply 10, `approve` of 5 by 0
for spender 2, then 0 transfers its whole balance of 10 to account 1.  Here
`allowance (0, 2) = 5` and `balance_of 0 = 0`. -/
def stateForAtomicityTest : Erc20 :=
  (transfer (approve (new 0 10).1 0 2 5).2.1 0 1 10).2.1


/-! ## Theorems -/

namespace Mapping

theorem get_insert_self {K V : Type} [DecidableEq K] (m : Mapping K V) (k : K) (v : V) :
    (m.insert k v).get k = some v := by
  induction m with
  | nil => simp [insert, get]
  | cons p rest ih =>
    obtain ⟨k', v'⟩ := p
    by_cases h : k' = k <;> simp [insert, get, h, ih]

theorem get_insert_ne {K V : Type} [DecidableEq K] (m : Mapping K V) {k k' : K} (v : V)
    (h : k' ≠ k) : (m.insert k v).get k' = m.get k' := by
  have h' : k ≠ k' := Ne.symm h
  induction m with
  | nil => simp [insert, get, h']
  | cons p rest ih =>
    obtain ⟨k₀, v₀⟩ := p
    by_cases h₀ : k₀ = k
    · subst h₀
      simp [insert, get, h']
    · simp only [insert, if_neg h₀, get]
      by_cases h₁ : k₀ = k' <;> simp [h₁, ih]

end Mapping

/-- Case analysis of `transfer_from_to`: either the balance check fails and
the call returns the error with the state untouched and no event, or it
succeeds with the two balance writes (debit first, credit second, the credit
read taken from the pre-state) and one `Transfer` event. -/
theorem transfer_from_to_spec (s : Erc20) (source to_ : AccountId) (v : Balance) :
    (balance_of_impl s source < v ∧
      transfer_from_to s source to_ v = (Except.error Error.InsufficientBalance, s, [])) ∨
    (v ≤ balance_of_impl s source ∧
      transfer_from_to s source to_ v =
        (Except.ok (),
         { s with
            balances :=
              (s.balances.insert source (balance_of_impl s source - v)).insert to_
                (balance_of_impl s to_ + v) },
         [Event.Transfer (some source) to_ v])) := by
  by_cases h : balance_of_impl s source < v
  · exact Or.inl ⟨h, by simp [transfer_from_to, h]⟩
  · exact Or.inr ⟨Nat.not_lt.mp h, by simp [transfer_from_to, h]⟩

/-- Case analysis of `transfer_from`: either the allowance check fails and the
call returns the error with the state untouched, or the decremented allowance
is stored and `transfer_from_to` runs on that updated state. -/
theorem transfer_from_spec (s : Erc20) (caller source to_ : AccountId) (v : Balance) :
    (allowance_impl s source caller < v ∧
      transfer_from s caller source to_ v = (Except.error Error.InsufficientAllowance, s, [])) ∨
    (v ≤ allowance_impl s source caller ∧
      transfer_from s caller source to_ v =
        transfer_from_to
          { s with
              allowances :=
                s.allowances.insert (source, caller)
                  (allowance_impl s source caller - v) } source to_ v) := by
  by_cases h : allowance_impl s source caller < v
  · exact Or.inl ⟨h, by simp [transfer_from, h]⟩
  · exact Or.inr ⟨Nat.not_lt.mp h, by simp [transfer_from, h]⟩

/-- Case analysis of `approve`: either the balance gate fails and the call
returns the error with the state untouched, or the allowance entry is
overwritten and one `Approval` event is emitted. -/
theorem approve_spec (s : Erc20) (caller spender : AccountId) (v : Balance) :
    (balance_of_impl s caller < v ∧
      approve s caller spender v = (Except.error Error.InsufficientBalance, s, [])) ∨
    (v ≤ balance_of_impl s caller ∧
      approve s caller spender v =
        (Except.ok (),
         { s with allowances := s.allowances.insert (caller, spender) v },
         [Event.Approval caller spender v])) := by
  by_cases h : balance_of_impl s caller < v
  · exact Or.inl ⟨h, by simp [approve, h]⟩
  · exact Or.inr ⟨Nat.not_lt.mp h, by simp [approve, h]⟩

/-- C1: the conservation invariant fails on the code: starting from
`new 0 10` (total supply 10, all held by account 0), the successful
self-transfer `transfer` with caller 0, recipient 0 and value 5 leaves the
sum of all stored balances at 15 while `total_supply` still returns 10. -/
theorem conservation_violated_by_self_transfer :
    (transfer (new 0 10).1 0 0 5).1 = Except.ok () ∧
    sumBalances (new 0 10).1 = total_supply (new 0 10).1 ∧
    sumBalances (transfer (new 0 10).1 0 0 5).2.1 = 15 ∧
    total_supply (transfer (new 0 10).1 0 0 5).2.1 = 10 :=
  ⟨rfl, rfl, rfl, rfl⟩

/-- C2: `transfer_from` is not atomic in the embedded code: in
`stateForAtomicityTest` (allowance of spender 2 on owner 0 is 5, balance of
owner 0 is 0), `transfer_from` by caller 2 moving 3 from 0 to 1 returns
`Err(InsufficientBalance)`, yet the allowance entry `(0, 2)` has been
decremented from 5 to 2 — the decrement written before the balance check is
not rolled back by the function. -/
theorem transfer_from_not_atomic :
    allowance stateForAtomicityTest 0 2 = 5 ∧
    balance_of stateForAtomicityTest 0 = 0 ∧
    (transfer_from stateForAtomicityTest 2 0 1 3).1
      = Except.error Error.InsufficientBalance ∧
    allowance (transfer_from stateForAtomicityTest 2 0 1 3).2.1 0 2 = 2 :=
  ⟨rfl, rfl, rfl, rfl⟩

/-- C3: self-transfer at the public interface: if account `a`'s balance is at
least `v`, then `transfer` with caller `a` and recipient `a` succeeds and
leaves `a`'s balance increased by `v` (the recipient's balance is read before
the sender's debit is written, and the credit write lands last). -/
theorem self_transfer_credits (s : Erc20) (a : AccountId) (v : Balance)
    (h : v ≤ balance_of s a) :
    (transfer s a a v).1 = Except.ok () ∧
    balance_of (transfer s a a v).2.1 a = balance_of s a + v := by
  have hlt : ¬ (Mapping.get s.balances a).getD 0 < v := by
    simpa [balance_of, balance_of_impl] using Nat.not_lt.mpr h
  constructor
  · simp [transfer, transfer_from_to, balance_of_impl, hlt]
  · simp [transfer, transfer_from_to, hlt, balance_of, balance_of_impl,
      Mapping.get_insert_self]

/-- C3 witness at a concrete input: `new 0 10`, self-transfer of 4. -/
theorem self_transfer_credits_witness :
    (transfer (new 0 10).1 0 0 4).1 = Except.ok () ∧
    balance_of (transfer (new 0 10).1 0 0 4).2.1 0 = balance_of (new 0 10).1 0 + 4 :=
  self_transfer_credits (new 0 10).1 0 4 (by decide)


/-- C4 counterexample: the claimed debit-and-credit effect fails when
`caller = to`: from `new 0 10`, `transfer` with caller 0, recipient 0 and
value 5 succeeds, but account 0's balance afterwards is 15, not the
`10 - 5 + 5 = 10` a debit of 5 plus a credit of 5 would give. -/
theorem transfer_claim_fails_on_self_transfer :
    (transfer (new 0 10).1 0 0 5).1 = Except.ok () ∧
    balance_of (new 0 10).1 0 = 10 ∧
    balance_of (transfer (new 0 10).1 0 0 5).2.1 0 ≠ 10 - 5 + 5 :=
  ⟨rfl, rfl, by decide⟩

/-- C4 (amended to distinct accounts): for `caller ≠ to`, if
`balance_of caller ≥ value` then `transfer` succeeds, debits the caller by
`value`, credits `to` by `value` and emits the one transfer event; if
`balance_of caller < value` it returns `Err(InsufficientBalance)` with the
whole state unchanged (so repeating the call fails identically). -/
theorem transfer_correct (s : Erc20) (caller to_ : AccountId) (v : Balance)
    (hne : caller ≠ to_) :
    (v ≤ balance_of s caller →
      (transfer s caller to_ v).1 = Except.ok () ∧
      balance_of (transfer s caller to_ v).2.1 caller = balance_of s caller - v ∧
      balance_of (transfer s caller to_ v).2.1 to_ = balance_of s to_ + v ∧
      (transfer s caller to_ v).2.2 = [Event.Transfer (some caller) to_ v]) ∧
    (balance_of s caller < v →
      transfer s caller to_ v = (Except.error Error.InsufficientBalance, s, [])) := by
  constructor
  · intro h
    rcases transfer_from_to_spec s caller to_ v with ⟨hlt, _⟩ | ⟨_, heq⟩
    · exact absurd hlt (by simpa [balance_of] using Nat.not_lt.mpr h)
    · refine ⟨?_, ?_, ?_, ?_⟩
      · simp [transfer, heq]
      · simp [transfer, heq, balance_of, balance_of_impl,
          Mapping.get_insert_ne _ _ hne, Mapping.get_insert_self]
      · simp [transfer, heq, balance_of, balance_of_impl, Mapping.get_insert_self]
      · simp [transfer, heq]
  · intro h
    rcases transfer_from_to_spec s caller to_ v with ⟨_, heq⟩ | ⟨hle, _⟩
    · simpa [transfer] using heq
    · exact absurd h (by simpa [balance_of] using Nat.not_lt.mpr hle)

/-- C4 witness: from `new 0 10`, `transfer` of 4 from account 0 to account 1
succeeds with the claimed debit, credit and event. -/
theorem transfer_correct_witness :
    (transfer (new 0 10).1 0 1 4).1 = Except.ok () ∧
    balance_of (transfer (new 0 10).1 0 1 4).2.1 0 = balance_of (new 0 10).1 0 - 4 ∧
    balance_of (transfer (new 0 10).1 0 1 4).2.1 1 = balance_of (new 0 10).1 1 + 4 ∧
    (transfer (new 0 10).1 0 1 4).2.2 = [Event.Transfer (some 0) 1 4] :=
  (transfer_correct (new 0 10).1 0 1 4 (by decide)).1 (by decide)

/-- C5: allowance consumption and frame: a successful
`transfer_from caller source to v` requires `allowance source caller ≥ v` and
leaves that allowance decreased by exactly `v` while every other allowance
entry is unchanged; when `allowance source caller < v` the call returns
`Err(InsufficientAllowance)`. -/
theorem transfer_from_allowance_consumption (s : Erc20) (caller source to_ : AccountId)
    (v : Balance) :
    ((transfer_from s caller source to_ v).1 = Except.ok () →
      v ≤ allowance s source caller ∧
      allowance (transfer_from s caller source to_ v).2.1 source caller
        = allowance s source caller - v ∧
      ∀ o sp : AccountId, (o, sp) ≠ (source, caller) →
        Mapping.get (transfer_from s caller source to_ v).2.1.allowances (o, sp)
          = Mapping.get s.allowances (o, sp)) ∧
    (allowance s source caller < v →
      (transfer_from s caller source to_ v).1 = Except.error Error.InsufficientAllowance) := by
  rcases transfer_from_spec s caller source to_ v with ⟨hlt, heq⟩ | ⟨hle, heq⟩
  · constructor
    · intro hok
      rw [heq] at hok
      exact absurd hok (by simp)
    · intro _
      simp [heq]
  · have hallow : (transfer_from s caller source to_ v).2.1.allowances
        = s.allowances.insert (source, caller) (allowance_impl s source caller - v) := by
      rw [heq]
      rcases transfer_from_to_spec
          { s with
            allowances :=
              s.allowances.insert (source, caller)
                (allowance_impl s source caller - v) } source to_ v with ⟨_, h2⟩ | ⟨_, h2⟩ <;>
        simp [h2]
    constructor
    · intro _
      refine ⟨hle, ?_, ?_⟩
      · simp [allowance, allowance_impl, hallow, Mapping.get_insert_self]
      · intro o sp hne
        simp [hallow, Mapping.get_insert_ne _ _ hne]
    · intro h
      exact absurd h (by simpa [allowance] using Nat.not_lt.mpr hle)

/-- C5 witness: `new 1 10`, then account 1 approves spender 2 for 5; the
successful `transfer_from` by caller 2 moving 4 from 1 to 3 consumes the
allowance down to 1 and leaves the unrelated entry `(1, 5)` unchanged. -/
theorem transfer_from_allowance_consumption_witness :
    4 ≤ allowance (approve (new 1 10).1 1 2 5).2.1 1 2 ∧
    allowance (transfer_from (approve (new 1 10).1 1 2 5).2.1 2 1 3 4).2.1 1 2
      = allowance (approve (new 1 10).1 1 2 5).2.1 1 2 - 4 ∧
    Mapping.get (transfer_from (approve (new 1 10).1 1 2 5).2.1 2 1 3 4).2.1.allowances (1, 5)
      = Mapping.get (approve (new 1 10).1 1 2 5).2.1.allowances (1, 5) :=
  ⟨((transfer_from_allowance_consumption (approve (new 1 10).1 1 2 5).2.1 2 1 3 4).1 rfl).1,
   ((transfer_from_allowance_consumption (approve (new 1 10).1 1 2 5).2.1 2 1 3 4).1 rfl).2.1,
   ((transfer_from_allowance_consumption (approve (new 1 10).1 1 2 5).2.1 2 1 3 4).1 rfl).2.2
     1 5 (by decide)⟩

/-- C6: `approve`: if `balance_of caller ≥ value` the call succeeds,
overwrites the allowance entry `(caller, spender)` with `value` (not
additively), leaves the balances and every other allowance entry unchanged,
and emits one `Approval {owner: caller, spender, value}` event; if
`balance_of caller < value` it returns `Err(InsufficientBalance)` with the
whole state unchanged. -/
theorem approve_correct (s : Erc20) (caller spender : AccountId) (v : Balance) :
    (v ≤ balance_of s caller →
      (approve s caller spender v).1 = Except.ok () ∧
      allowance (approve s caller spender v).2.1 caller spender = v ∧
      (approve s caller spender v).2.1.balances = s.balances ∧
      (∀ o sp : AccountId, (o, sp) ≠ (caller, spender) →
        Mapping.get (approve s caller spender v).2.1.allowances (o, sp)
          = Mapping.get s.allowances (o, sp)) ∧
      (approve s caller spender v).2.2 = [Event.Approval caller spender v]) ∧
    (balance_of s caller < v →
      approve s caller spender v = (Except.error Error.InsufficientBalance, s, [])) := by
  rcases approve_spec s caller spender v with ⟨hlt, heq⟩ | ⟨hle, heq⟩
  · constructor
    · intro h
      exact absurd hlt (by simpa [balance_of] using Nat.not_lt.mpr h)
    · intro _
      exact heq
  · constructor
    · intro _
      refine ⟨by simp [heq], ?_, by simp [heq], ?_, by simp [heq]⟩
      · simp [heq, allowance, allowance_impl, Mapping.get_insert_self]
      · intro o sp hne
        simp [heq, Mapping.get_insert_ne _ _ hne]
    · intro h
      exact absurd h (by simpa [balance_of] using Nat.not_lt.mpr hle)

/-- C6 witness: from `new 0 10`, account 0 approves spender 1 for 7:
the call succeeds, the entry `(0, 1)` reads 7, balances are unchanged, the
unrelated entry `(0, 2)` is unchanged, and one `Approval` event is emitted. -/
theorem approve_correct_witness :
    (approve (new 0 10).1 0 1 7).1 = Except.ok () ∧
    allowance (approve (new 0 10).1 0 1 7).2.1 0 1 = 7 ∧
    (approve (new 0 10).1 0 1 7).2.1.balances = (new 0 10).1.balances ∧
    Mapping.get (approve (new 0 10).1 0 1 7).2.1.allowances (0, 2)
      = Mapping.get (new 0 10).1.allowances (0, 2) ∧
    (approve (new 0 10).1 0 1 7).2.2 = [Event.Approval 0 1 7] :=
  ⟨((approve_correct (new 0 10).1 0 1 7).1 (by decide)).1,
   ((approve_correct (new 0 10).1 0 1 7).1 (by decide)).2.1,
   ((approve_correct (new 0 10).1 0 1 7).1 (by decide)).2.2.1,
   ((approve_correct (new 0 10).1 0 1 7).1 (by decide)).2.2.2.1 0 2 (by decide),
   ((approve_correct (new 0 10).1 0 1 7).1 (by decide)).2.2.2.2⟩

/-- C7: construction: `new creator supply` stores the creator's balance as
`supply`, `total_supply` returns `supply`, every other account's balance is 0,
every allowance is 0, exactly the one event
`Transfer {from: None, to: creator, value: supply}` is emitted — and no
mutating message ever emits a `Transfer` event with `from = None`. -/
theorem new_correct (creator : AccountId) (supply : Balance) :
    Mapping.get (new creator supply).1.balances creator = some supply ∧
    total_supply (new creator supply).1 = supply ∧
    (∀ a : AccountId, a ≠ creator → balance_of (new creator supply).1 a = 0) ∧
    (∀ o sp : AccountId, allowance (new creator supply).1 o sp = 0) ∧
    (new creator supply).2 = [Event.Transfer none creator supply] ∧
    (∀ (s : Erc20) (op : Op) (t : AccountId) (w : Balance),
      Event.Transfer none t w ∉ (applyOp s op).2.2) := by
  refine ⟨?_, rfl, ?_, ?_, rfl, ?_⟩
  · simp [new, Mapping.get, Mapping.insert, Mapping.default]
  · intro a ha
    simp [new, balance_of, balance_of_impl, Mapping.get, Mapping.insert, Mapping.default,
      Ne.symm ha]
  · intro o sp
    simp [new, allowance, allowance_impl, Mapping.get, Mapping.default]
  · intro s op t w
    cases op with
    | transfer caller to_ v =>
      rcases transfer_from_to_spec s caller to_ v with ⟨_, h⟩ | ⟨_, h⟩ <;>
        simp [applyOp, transfer, h]
    | approve caller spender v =>
      rcases approve_spec s caller spender v with ⟨_, h⟩ | ⟨_, h⟩ <;>
        simp [applyOp, h]
    | transfer_from caller source to_ v =>
      rcases transfer_from_spec s caller source to_ v with ⟨_, h⟩ | ⟨_, h⟩
      · simp [applyOp, h]
      · rcases transfer_from_to_spec
            { s with
              allowances :=
                s.allowances.insert (source, caller)
                  (allowance_impl s source caller - v) } source to_ v with ⟨_, h2⟩ | ⟨_, h2⟩ <;>
          simp [applyOp, h, h2]

/-- C7 witness: `new 7 100` stores 100 for account 7, reads 0 for account 3,
and no `transfer` invocation emits a `from = None` event. -/
theorem new_correct_witness :
    Mapping.get (new 7 100).1.balances 7 = some 100 ∧
    balance_of (new 7 100).1 3 = 0 ∧
    Event.Transfer none 1 4 ∉ (applyOp (new 7 100).1 (Op.transfer 7 1 4)).2.2 :=
  ⟨(new_correct 7 100).1,
   (new_correct 7 100).2.2.1 3 (by decide),
   (new_correct 7 100).2.2.2.2.2 (new 7 100).1 (Op.transfer 7 1 4) 1 4⟩

/-- C8: notification contract: a successful `transfer` or `transfer_from`
emits exactly its one `Transfer` event, a successful `approve` emits exactly
its one `Approval` event, any failing call emits no event at all, and
zero-amount transfers, transfer_froms and approvals all succeed and still
emit their event. -/
theorem notification_contract (s : Erc20) (caller source to_ spender : AccountId)
    (v : Balance) :
    ((transfer s caller to_ v).1 = Except.ok () →
        (transfer s caller to_ v).2.2 = [Event.Transfer (some caller) to_ v]) ∧
    (∀ err : Error, (transfer s caller to_ v).1 = Except.error err →
        (transfer s caller to_ v).2.2 = []) ∧
    ((transfer_from s caller source to_ v).1 = Except.ok () →
        (transfer_from s caller source to_ v).2.2 = [Event.Transfer (some source) to_ v]) ∧
    (∀ err : Error, (transfer_from s caller source to_ v).1 = Except.error err →
        (transfer_from s caller source to_ v).2.2 = []) ∧
    ((approve s caller spender v).1 = Except.ok () →
        (approve s caller spender v).2.2 = [Event.Approval caller spender v]) ∧
    (∀ err : Error, (approve s caller spender v).1 = Except.error err →
        (approve s caller spender v).2.2 = []) ∧
    ((transfer s caller to_ 0).1 = Except.ok () ∧
        (transfer s caller to_ 0).2.2 = [Event.Transfer (some caller) to_ 0]) ∧
    ((transfer_from s caller source to_ 0).1 = Except.ok () ∧
        (transfer_from s caller source to_ 0).2.2 = [Event.Transfer (some source) to_ 0]) ∧
    ((approve s caller spender 0).1 = Except.ok () ∧
        (approve s caller spender 0).2.2 = [Event.Approval caller spender 0]) := by
  refine ⟨?_, ?_, ?_, ?_, ?_, ?_, ?_, ?_, ?_⟩
  · intro hok
    rcases transfer_from_to_spec s caller to_ v with ⟨_, h⟩ | ⟨_, h⟩
    · rw [transfer, h] at hok
      exact absurd hok (by simp)
    · simp [transfer, h]
  · intro err herr
    rcases transfer_from_to_spec s caller to_ v with ⟨_, h⟩ | ⟨_, h⟩
    · simp [transfer, h]
    · rw [transfer, h] at herr
      exact absurd herr (by simp)
  · intro hok
    rcases transfer_from_spec s caller source to_ v with ⟨_, h⟩ | ⟨_, h⟩
    · rw [h] at hok
      exact absurd hok (by simp)
    · rcases transfer_from_to_spec
          { s with
            allowances :=
              s.allowances.insert (source, caller)
                (allowance_impl s source caller - v) } source to_ v with ⟨_, h2⟩ | ⟨_, h2⟩
      · rw [h, h2] at hok
        exact absurd hok (by simp)
      · simp [h, h2]
  · intro err herr
    rcases transfer_from_spec s caller source to_ v with ⟨_, h⟩ | ⟨_, h⟩
    · simp [h]
    · rcases transfer_from_to_spec
          { s with
            allowances :=
              s.allowances.insert (source, caller)
                (allowance_impl s source caller - v) } source to_ v with ⟨_, h2⟩ | ⟨_, h2⟩
      · simp [h, h2]
      · rw [h, h2] at herr
        exact absurd herr (by simp)
  · intro hok
    rcases approve_spec s caller spender v with ⟨_, h⟩ | ⟨_, h⟩
    · rw [h] at hok
      exact absurd hok (by simp)
    · simp [h]
  · intro err herr
    rcases approve_spec s caller spender v with ⟨_, h⟩ | ⟨_, h⟩
    · simp [h]
    · rw [h] at herr
      exact absurd herr (by simp)
  · rcases transfer_from_to_spec s caller to_ 0 with ⟨h, _⟩ | ⟨_, h⟩
    · exact absurd h (Nat.not_lt_zero _)
    · simp [transfer, h]
  · rcases transfer_from_spec s caller source to_ 0 with ⟨h, _⟩ | ⟨_, h⟩
    · exact absurd h (Nat.not_lt_zero _)
    · rcases transfer_from_to_spec
          { s with
            allowances :=
              s.allowances.insert (source, caller)
                (allowance_impl s source caller - 0) } source to_ 0 with ⟨h2, _⟩ | ⟨_, h2⟩
      · exact absurd h2 (Nat.not_lt_zero _)
      · rw [h, h2]
        exact ⟨rfl, rfl⟩
  · rcases approve_spec s caller spender 0 with ⟨h, _⟩ | ⟨_, h⟩
    · exact absurd h (Nat.not_lt_zero _)
    · simp [h]

/-- C8 witness: concrete instances from `new 0 10`: a successful transfer
emits its one event, an insufficient-balance transfer by account 1 emits
none, and the zero-amount approve by account 1 (balance 0) succeeds and
emits its event. -/
theorem notification_contract_witness :
    (transfer (new 0 10).1 0 1 4).2.2 = [Event.Transfer (some 0) 1 4] ∧
    (transfer (new 0 10).1 1 0 4).2.2 = [] ∧
    ((approve (new 0 10).1 1 2 0).1 = Except.ok () ∧
        (approve (new 0 10).1 1 2 0).2.2 = [Event.Approval 1 2 0]) :=
  ⟨(notification_contract (new 0 10).1 0 0 1 0 4).1 rfl,
   (notification_contract (new 0 10).1 1 0 0 0 4).2.1 Error.InsufficientBalance rfl,
   (notification_contract (new 0 10).1 1 0 0 2 0).2.2.2.2.2.2.2.2⟩

/-- No message invocation, successful or failed, changes `total_supply`. -/
theorem total_supply_applyOp (s : Erc20) (op : Op) :
    total_supply (applyOp s op).2.1 = total_supply s := by
  cases op with
  | transfer caller to_ v =>
    rcases transfer_from_to_spec s caller to_ v with ⟨_, h⟩ | ⟨_, h⟩ <;>
      simp [applyOp, transfer, h, total_supply]
  | approve caller spender v =>
    rcases approve_spec s caller spender v with ⟨_, h⟩ | ⟨_, h⟩ <;>
      simp [applyOp, h, total_supply]
  | transfer_from caller source to_ v =>
    rcases transfer_from_spec s caller source to_ v with ⟨_, h⟩ | ⟨_, h⟩
    · simp [applyOp, h, total_supply]
    · rcases transfer_from_to_spec
          { s with
            allowances :=
              s.allowances.insert (source, caller)
                (allowance_impl s source caller - v) } source to_ v with ⟨_, h2⟩ | ⟨_, h2⟩ <;>
        simp [applyOp, h, h2, total_supply]

/-- C9: queries: in any state reachable from `new creator supply`,
`balance_of` returns the stored balance (or 0 when absent), `allowance`
returns the stored allowance (or 0 when absent), and `total_supply` returns
the supply fixed at construction; all three are pure functions of the state,
so they neither fail nor mutate it. -/
theorem queries_correct (creator : AccountId) (supply : Balance) (s : Erc20)
    (h : ReachableFrom creator supply s) (a o sp : AccountId) :
    balance_of s a = (Mapping.get s.balances a).getD 0 ∧
    allowance s o sp = (Mapping.get s.allowances (o, sp)).getD 0 ∧
    total_supply s = supply := by
  refine ⟨rfl, rfl, ?_⟩
  induction h with
  | init => rfl
  | step op _ ih => rw [total_supply_applyOp, ih]

/-- C9 witness: the state after `new 0 10` and a transfer of 4 to account 1
is reachable; its queries read stored values with default 0 and
`total_supply` still returns 10. -/
theorem queries_correct_witness :
    balance_of (applyOp (new 0 10).1 (Op.transfer 0 1 4)).2.1 1
      = (Mapping.get (applyOp (new 0 10).1 (Op.transfer 0 1 4)).2.1.balances 1).getD 0 ∧
    allowance (applyOp (new 0 10).1 (Op.transfer 0 1 4)).2.1 1 2
      = (Mapping.get (applyOp (new 0 10).1 (Op.transfer 0 1 4)).2.1.allowances (1, 2)).getD 0 ∧
    total_supply (applyOp (new 0 10).1 (Op.transfer 0 1 4)).2.1 = 10 :=
  queries_correct 0 10 (applyOp (new 0 10).1 (Op.transfer 0 1 4)).2.1
    (ReachableFrom.step (Op.transfer 0 1 4) ReachableFrom.init) 1 1 2

/-- C10 counterexample: the state reached from `new 0 5` by the transfer of
account 0's entire balance of 5 to account 1 is reachable, yet its balances
mapping stores the entry `0 ↦ 0`: a zero balance is stored, not represented
by absence. -/
theorem zero_balance_entry_stored :
    ReachableFrom 0 5 (applyOp (new 0 5).1 (Op.transfer 0 1 5)).2.1 ∧
    Mapping.get (applyOp (new 0 5).1 (Op.transfer 0 1 5)).2.1.balances 0 = some 0 :=
  ⟨ReachableFrom.step (Op.transfer 0 1 5) ReachableFrom.init, rfl⟩

/-- C10 (amended): the balances mapping does store zero-valued entries: an
absent entry still reads as balance 0, but whenever an account transfers its
entire balance to a different account the sender's entry remains stored with
value 0. -/
theorem zero_balance_entries (s : Erc20) (caller to_ a : AccountId) (v : Balance)
    (hne : caller ≠ to_) (hv : balance_of s caller = v)
    (ha : Mapping.get s.balances a = none) :
    balance_of s a = 0 ∧
    Mapping.get (transfer s caller to_ v).2.1.balances caller = some 0 := by
  constructor
  · simp [balance_of, balance_of_impl, ha]
  · rcases transfer_from_to_spec s caller to_ v with ⟨hlt, _⟩ | ⟨_, heq⟩
    · refine absurd hlt ?_
      rw [show balance_of_impl s caller = v from hv]
      exact lt_irrefl v
    · rw [transfer, heq]
      have hv' : balance_of_impl s caller = v := hv
      simp [hv', Mapping.get_insert_ne _ _ hne, Mapping.get_insert_self]

/-- C10 witness: from `new 0 5` (account 3 absent, reading 0), the transfer
of the full balance 5 from account 0 to account 1 leaves `0 ↦ 0` stored. -/
theorem zero_balance_entries_witness :
    balance_of (new 0 5).1 3 = 0 ∧
    Mapping.get (transfer (new 0 5).1 0 1 5).2.1.balances 0 = some 0 :=
  zero_balance_entries (new 0 5).1 0 1 3 5 (by decide) (by decide) (by decide)

end Erc20Spec
